import Mathlib

/-!
Verification of the best-fix reasoning engine of `shiftleft-utils/bestfix.py`.

The Python source is shallowly embedded: dictionaries become structures with
`Option` fields (`none` models an absent key, and for sub-dictionaries also an
empty — hence falsy — dictionary), Python exceptions become `Except.error`,
and Python's `in` substring operator becomes `pyIn`.  String primitives that
the source uses (`split`, `replace`, `lower`, `int(...)`, `urllib.parse.unquote`)
are re-implemented on character lists so that every definition reduces in the
kernel.  File access (`linecache.getline` plus the path-resolution of
`_get_code_line`) is abstracted as a `SrcTree` function from file name and
1-based line number to the text of that line, with `""` for a missing file or
a line past the end of file, exactly the value `linecache.getline` yields.
-/

set_option maxRecDepth 100000

/-- Python `sub in s` on strings: substring containment. -/
def pyIn (sub s : String) : Bool := decide (sub.data <:+: s.data)

/-- Structural prefix test on character lists. -/
def listPre : List Char → List Char → Bool
  | [], _ => true
  | _ :: _, [] => false
  | a :: as, b :: bs => a = b && listPre as bs

/-- Fueled worker for `pySplit` (Python `str.split(sep)` with non-empty `sep`). -/
def splitF (sep : List Char) : Nat → List Char → List Char → List (List Char)
  | 0, _, acc => [acc.reverse]
  | Nat.succ fuel, l, acc =>
    match l with
    | [] => [acc.reverse]
    | c :: rest =>
      if sep ≠ [] ∧ listPre sep l then
        acc.reverse :: splitF sep fuel (l.drop sep.length) []
      else
        splitF sep fuel rest (c :: acc)

/-- Python `s.split(sep)` for a non-empty separator. -/
def pySplit (s sep : String) : List String :=
  (splitF sep.data s.data.length s.data []).map String.mk

/-- Fueled worker for `pyReplace` (Python `str.replace`, left-to-right,
non-overlapping). -/
def replaceF (pat rep : List Char) : Nat → List Char → List Char
  | 0, l => l
  | Nat.succ fuel, l =>
    match l with
    | [] => []
    | c :: rest =>
      if pat ≠ [] ∧ listPre pat l then
        rep ++ replaceF pat rep fuel (l.drop pat.length)
      else
        c :: replaceF pat rep fuel rest

/-- Python `s.replace(pat, rep)` for a non-empty pattern. -/
def pyReplace (s pat rep : String) : String :=
  String.mk (replaceF pat.data rep.data s.data.length s.data)

/-- ASCII lower-casing of one character (all names in scope are ASCII). -/
def lowerChar (c : Char) : Char :=
  if 'A' ≤ c ∧ c ≤ 'Z' then Char.ofNat (c.toNat + 32) else c

/-- Python `s.lower()` restricted to ASCII. -/
def pyLower (s : String) : String := String.mk (s.data.map lowerChar)

/-- Decimal digit value of a character, if any. -/
def digitVal (c : Char) : Option Nat :=
  if '0' ≤ c ∧ c ≤ '9' then some (c.toNat - 48) else none

/-- Accumulating decimal parser behind `pyInt`. -/
def parseNatF : List Char → Nat → Option Nat
  | [], acc => some acc
  | c :: rest, acc =>
    match digitVal c with
    | some d => parseNatF rest (10 * acc + d)
    | none => none

/-- Python `int(s)` restricted to the non-negative decimal strings the engine
actually parses (line numbers); `none` models the `ValueError` raised
otherwise. -/
def pyInt (s : String) : Option Nat :=
  if s.data = [] then none else parseNatF s.data 0

/-- Value of a hexadecimal digit, if any. -/
def hexVal (c : Char) : Option Nat :=
  if '0' ≤ c ∧ c ≤ '9' then some (c.toNat - 48)
  else if 'a' ≤ c ∧ c ≤ 'f' then some (c.toNat - 87)
  else if 'A' ≤ c ∧ c ≤ 'F' then some (c.toNat - 55)
  else none

/-- Percent-decoding worker: `%xy` with two hex digits becomes the character
with code `16*x + y`; anything else is copied verbatim. -/
def unquoteF : List Char → List Char
  | [] => []
  | '%' :: a :: b :: rest =>
    match hexVal a, hexVal b with
    | some x, some y => Char.ofNat (16 * x + y) :: unquoteF rest
    | _, _ => '%' :: unquoteF (a :: b :: rest)
  | c :: rest => c :: unquoteF rest

/-- `urllib.parse.unquote` restricted to single-byte escapes, which is all the
engine's `file:line` strings use. -/
def unquote (s : String) : String := String.mk (unquoteF s.data)

/-- Python `sep.join(l)`. -/
def joinSep (sep : String) : List String → String
  | [] => ""
  | [a] => a
  | a :: b :: rest => a ++ sep ++ joinSep sep (b :: rest)

/-- Python `set.add` on the insertion-ordered model of a set of strings. -/
def addSet (l : List String) (x : String) : List String :=
  if x ∈ l then l else l ++ [x]

/-- f-string rendering of a fetched optional string (`f"{d.get(k)}"` prints
`None` for a missing key). -/
def pyName : Option String → String
  | some s => s
  | none => "None"

/-- f-string rendering of a fetched optional line number. -/
def pyNum : Option Nat → String
  | some n => toString n
  | none => "None"

/-- A `symbol`-carrying sub-record of `variable_info`; `none` in the wrapping
`Option SymbolRef` models an absent or empty (falsy) dictionary. -/
structure SymbolRef where
  symbol : Option String
deriving DecidableEq

/-- One `variable_info` node.  `varKeyLC`/`varKeyUC` model the `"variable"` /
`"Variable"` wrapper keys; `paramUC`/`paramLC` the `"Parameter"`/`"parameter"`
keys, `locUC`/`locLC` the `"Local"`/`"local"` keys, `memUC`/`memLC` the
`"Member"`/`"member"` keys.  `none` models an absent or empty dictionary. -/
inductive VarInfoNode : Type where
  | mk (varKeyLC varKeyUC : Option VarInfoNode)
       (paramUC paramLC locUC locLC memUC memLC : Option SymbolRef)

/-- The `"variable"` wrapper key. -/
def VarInfoNode.varKeyLC : VarInfoNode → Option VarInfoNode
  | .mk a _ _ _ _ _ _ _ => a

/-- The `"Variable"` wrapper key. -/
def VarInfoNode.varKeyUC : VarInfoNode → Option VarInfoNode
  | .mk _ b _ _ _ _ _ _ => b

/-- The `"Parameter"` key. -/
def VarInfoNode.paramUC : VarInfoNode → Option SymbolRef
  | .mk _ _ c _ _ _ _ _ => c

/-- The `"parameter"` key. -/
def VarInfoNode.paramLC : VarInfoNode → Option SymbolRef
  | .mk _ _ _ d _ _ _ _ => d

/-- The `"Local"` key. -/
def VarInfoNode.locUC : VarInfoNode → Option SymbolRef
  | .mk _ _ _ _ e _ _ _ => e

/-- The `"local"` key. -/
def VarInfoNode.locLC : VarInfoNode → Option SymbolRef
  | .mk _ _ _ _ _ f _ _ => f

/-- The `"Member"` key. -/
def VarInfoNode.memUC : VarInfoNode → Option SymbolRef
  | .mk _ _ _ _ _ _ g _ => g

/-- The `"member"` key. -/
def VarInfoNode.memLC : VarInfoNode → Option SymbolRef
  | .mk _ _ _ _ _ _ _ h => h

/-- A dataflow-step location (`df["location"]`); every field is fetched with
`.get`, so every field is optional. -/
structure Location where
  file_name : Option String
  line_number : Option Nat
  method_name : Option String
  short_method_name : Option String
deriving DecidableEq

/-- One dataflow step.  `df.get("location", {})` defaults to an empty dict,
modeled as a `Location` with all fields `none`; `variable_info` is `none` for
an absent or empty dict. -/
structure DataflowStep where
  location : Location
  variable_info : Option VarInfoNode

/-- One entry of a finding's `tags` list; an absent key/value is modeled as
`""` (no claim exercises a tag with a missing key). -/
structure Tag where
  key : String
  value : String
deriving DecidableEq

/-- The `details` block; `source_method`/`sink_method` are fetched with
default `""`, and `dataflow = none` models an absent or empty (falsy)
`dataflow` object, whose `list` then defaults to `[]`. -/
structure Details where
  source_method : String
  sink_method : String
  dataflow : Option (List DataflowStep)

/-- One raw finding.  String metadata fields that the engine only copies into
its output are modeled as plain strings. -/
structure Finding where
  id : String
  ftype : String
  category : String
  title : String
  version_first_seen : String
  scan_first_seen : String
  internal_id : String
  details : Details
  tags : List Tag

/-- The per-finding normalizer state built while iterating the dataflow list
(bestfix.py lines 183-195): the taint trail, the visited `file:line` strings,
the short method names, the detected check/validation methods (a Python `set`
modeled as an insertion-ordered duplicate-free list), and the running
`source_method`. -/
structure NormState where
  tracked_list : List String
  files_loc_list : List String
  methods_list : List String
  check_methods : List String
  source_method : String
deriving DecidableEq

/-- Output of the dataflow normalizer: the state after the loop plus the
resolved `sink_method` (bestfix.py lines 279-282). -/
structure NormResult where
  tracked_list : List String
  files_loc_list : List String
  methods_list : List String
  check_methods : List String
  source_method : String
  sink_method : String
deriving DecidableEq

/-- `X if X else Y` on optional sub-records: models
`parameter = vi.get("Parameter"); if not parameter: parameter = vi.get("parameter")`
(bestfix.py lines 228-236). -/
def firstSome (a b : Option SymbolRef) : Option SymbolRef :=
  match a with
  | some x => some x
  | none => b

/-- `if X and X.get("symbol"):` — yields the symbol when the sub-record and
its `symbol` entry are both truthy (a present, non-empty string). -/
def symTruthy : Option SymbolRef → Option String
  | some r =>
    match r.symbol with
    | some s => if s = "" then none else some s
    | none => none
  | none => none

/-- `symbol.split(".")[-1]`: the last dotted segment (bestfix.py line 240). -/
def lastSeg (s : String) : String := (pySplit s ".").getLastD ""

/-- The wrapper unwrapping of bestfix.py lines 223-226:
`if variableInfo.get("variable"): variableInfo = variableInfo.get("variable")`
then the same for `"Variable"` on the result. -/
def unwrapVarInfo (v : VarInfoNode) : VarInfoNode :=
  let v1 :=
    match v.varKeyLC with
    | some w => w
    | none => v
  match v1.varKeyUC with
  | some w => w
  | none => v1

/-- Symbol resolution on an unwrapped `variable_info` node (bestfix.py lines
227-242).  The three `if` statements are sequential, not `elif`: a later
truthy branch overwrites the `symbol` set by an earlier one. -/
def resolveFields (vi : VarInfoNode) : String :=
  let parameter := firstSome vi.paramUC vi.paramLC
  let locl := firstSome vi.locUC vi.locLC
  let member := firstSome vi.memUC vi.memLC
  let symbol := ""
  let symbol :=
    match symTruthy parameter with
    | some s => s
    | none => symbol
  let symbol :=
    match symTruthy member with
    | some s => lastSeg s
    | none => symbol
  let symbol :=
    match symTruthy locl with
    | some s => s
    | none => symbol
  symbol

/-- Symbol derived from one step's `variable_info` record. -/
def resolveSymbol (v : VarInfoNode) : String := resolveFields (unwrapVarInfo v)

/-- Trail update for one resolved symbol (bestfix.py lines 243-259): append
the symbol unless it is falsy, already tracked, contains `____obj`, or is one
of `this`, `req`, `res`, `p1`; on a `.cs` file additionally drop symbols
containing `Dto`. -/
def updateTracked (file_name symbol : String) (tracked_list : List String) : List String :=
  if symbol ≠ "" ∧ symbol ∉ tracked_list ∧ pyIn "____obj" symbol = false ∧
      symbol ∉ (["this", "req", "res", "p1"] : List String) then
    if pyIn ".cs" file_name = true then
      if pyIn "Dto" symbol = false then tracked_list ++ [symbol] else tracked_list
    else tracked_list ++ [symbol]
  else tracked_list

/-- The `short_method_name` block of bestfix.py lines 260-271: derive a
display name for anonymous functions from `method_name` (raising
`AttributeError` when `method_name` is missing), append it to `methods_list`,
and record the full method name in `check_methods` when the lowercased short
name contains `check`, `valid` or `sanit`.  A missing `method_name` passed to
`check_methods.add` is modeled as `""` (the source would store `None` and
only fail later, when the names are joined). -/
def methodsUpdate (location : Location) (methods_list check_methods : List String) :
    Except String (List String × List String) :=
  match location.short_method_name with
  | none => .ok (methods_list, check_methods)
  | some smn =>
    if smn = "" ∨ pyIn "empty" smn = true then .ok (methods_list, check_methods)
    else
      let smnE : Except String String :=
        if pyIn "anonymous" smn = true then
          match location.method_name with
          | none => .error "AttributeError"
          | some mn =>
            .ok ((pySplit ((pySplit ((pySplit mn ":anonymous").headD "") "::").getLastD "") ":").getLastD "")
        else .ok smn
      match smnE with
      | .error e => .error e
      | .ok smn2 =>
        let methods := methods_list ++ [smn2]
        let checks :=
          if pyIn "check" (pyLower smn2) = true ∨ pyIn "valid" (pyLower smn2) = true ∨
              pyIn "sanit" (pyLower smn2) = true then
            addSet check_methods (location.method_name.getD "")
          else check_methods
        .ok (methods, checks)

/-- The body of one loop iteration for a step that passed the skip guards
(bestfix.py lines 221-278): trail update, methods/check update, then the
`source_method` default and the `files_loc_list` append.  The append checks
the raw `file:line` string for membership but appends its percent-decoded
form, exactly as the source does. -/
def processStepBody (st : NormState) (location : Location) (file_name : String)
    (variable_info : Option VarInfoNode) : Except String NormState :=
  let tracked_list :=
    match variable_info with
    | none => st.tracked_list
    | some vi => updateTracked file_name (resolveSymbol vi) st.tracked_list
  match methodsUpdate location st.methods_list st.check_methods with
  | .error e => .error e
  | .ok (methods_list, check_methods) =>
    let source_method :=
      if st.source_method = "" then
        pyName location.file_name ++ ":" ++ pyNum location.line_number
      else st.source_method
    let loc_line := pyName location.file_name ++ ":" ++ pyNum location.line_number
    let files_loc_list :=
      if loc_line ∈ st.files_loc_list then st.files_loc_list
      else st.files_loc_list ++ [unquote loc_line]
    .ok { tracked_list := tracked_list, files_loc_list := files_loc_list,
          methods_list := methods_list, check_methods := check_methods,
          source_method := source_method }

/-- One dataflow step of the normalizer loop (bestfix.py lines 210-278).
A step with `file_name == "N/A"` or a falsy `line_number` is skipped; the
C# getter/setter test `".cs" in file_name and ("get_" in smn or ...)`
dereferences `file_name` and — when the file is a `.cs` file —
`short_method_name`, raising `TypeError` when the dereferenced value is
`None`. -/
def processStep (st : NormState) (df : DataflowStep) : Except String NormState :=
  let location := df.location
  if location.file_name = some "N/A" ∨ location.line_number.getD 0 = 0 then .ok st
  else
    match location.file_name with
    | none => .error "TypeError"
    | some file_name =>
      if pyIn ".cs" file_name = true then
        match location.short_method_name with
        | none => .error "TypeError"
        | some smn0 =>
          if pyIn "get_" smn0 = true ∨ pyIn "set_" smn0 = true then .ok st
          else processStepBody st location file_name df.variable_info
      else processStepBody st location file_name df.variable_info

/-- Sequential processing of the dataflow list; an exception aborts the
remainder of the loop, as in Python. -/
def foldSteps (st : NormState) : List DataflowStep → Except String NormState
  | [] => .ok st
  | d :: rest =>
    match processStep st d with
    | .error e => .error e
    | .ok st2 => foldSteps st2 rest

/-- Truthiness of a location dictionary, restricted to its modeled keys. -/
def locTruthy (l : Location) : Bool :=
  l.file_name.isSome || l.line_number.isSome || l.method_name.isSome ||
    l.short_method_name.isSome

/-- Truthiness of a dataflow-step dictionary, restricted to its modeled keys. -/
def stepTruthy (d : DataflowStep) : Bool :=
  locTruthy d.location || d.variable_info.isSome

/-- The dataflow normalizer (bestfix.py lines 206-282): fold the steps from
the initial state, then resolve `sink_method` from the last step's location
when the finding's own metadata did not supply one. -/
def processDataflows (source_method0 sink_method0 : String)
    (dataflows : List DataflowStep) : Except String NormResult :=
  match foldSteps { tracked_list := [], files_loc_list := [], methods_list := [],
                    check_methods := [], source_method := source_method0 } dataflows with
  | .error e => .error e
  | .ok st =>
    let sink_method :=
      match dataflows.getLast? with
      | some lastDf =>
        if stepTruthy lastDf = true then
          if locTruthy lastDf.location = true ∧ sink_method0 = "" then
            pyName lastDf.location.file_name ++ ":" ++ pyNum lastDf.location.line_number
          else sink_method0
        else sink_method0
      | none => sink_method0
    .ok { tracked_list := st.tracked_list, files_loc_list := st.files_loc_list,
          methods_list := st.methods_list, check_methods := st.check_methods,
          source_method := st.source_method, sink_method := sink_method }

/-- The source tree as seen through `_get_code_line`'s path resolution and
`linecache.getline`: the text of the given 1-based line of the given file,
`""` when the file cannot be located or the line is past end-of-file. -/
abbrev SrcTree := String → Nat → String

/-- The variable scan of `_get_code_line` (bestfix.py lines 72-84): the first
symbol, in trail order, that occurs in the line and is neither `$`-qualified
nor in the stoplist `this, self, req, res, p1` is detected; spacing is
inserted around it where it abuts a parenthesis or comma, and the scan stops.
A stoplisted or `$`-carrying occurrence does not stop the scan. -/
def scanVars (text : String) : List String → String × String
  | [] => (text, "")
  | var :: rest =>
    if pyIn var text = true then
      if pyIn "$" var = false ∧ var ∉ (["this", "self", "req", "res", "p1"] : List String) then
        (pyReplace (pyReplace (pyReplace (pyReplace text
            ("(" ++ var) ("( " ++ var ++ " "))
            (var ++ ")") (" " ++ var ++ " )"))
            ("," ++ var) (", " ++ var ++ " "))
            (var ++ ",") (" " ++ var ++ " ,"),
         var)
      else scanVars text rest
    else scanVars text rest

/-- The line loop of `get_code` (bestfix.py lines 102-113), with
`fuel = lmax - lmin` iterations — the Python `xrange(lmin, lmax)`.  Each kept
line is rendered `"%i %s" % (line, text)`; the first detected variable wins;
an empty line text breaks the loop. -/
def codeLoop (fs : SrcTree) (fname : String) (vars : List String) :
    Nat → Nat → String → List String × String
  | 0, _, vd => ([], vd)
  | Nat.succ fuel, line, vd =>
    let scanned := scanVars (fs fname line) vars
    let vd2 := if vd = "" ∧ scanned.2 ≠ "" then scanned.2 else vd
    if scanned.1 = "" then ([], vd2)
    else
      let rest := codeLoop fs fname vars fuel (line + 1) vd2
      ((toString line ++ " " ++ scanned.1) :: rest.1, rest.2)

/-- `get_code` before joining: the list of rendered lines plus the detected
variable (bestfix.py lines 87-117).  `lmin = max(1, lineno - max_lines // 2)`
and `lmax = lmin + max_lines - 1`; the loop runs over `xrange(lmin, lmax)`,
i.e. `lmax - lmin` iterations. -/
def get_code_parts (fs : SrcTree) (fname : String) (lineno : Nat)
    (vars : List String) (max_lines : Nat) : List String × String :=
  if fname = "" then ([], "")
  else
    let maxL := max max_lines 1
    let lmin := max 1 (lineno - maxL / 2)
    let lmax := lmin + maxL - 1
    codeLoop fs fname vars (lmax - lmin) lmin ""

/-- `get_code` (bestfix.py lines 87-117): the joined snippet plus the
detected variable.  `if not fname: return ""` is modeled as the empty
snippet. -/
def get_code (fs : SrcTree) (fname : String) (lineno : Nat)
    (vars : List String) (max_lines : Nat) : String × String :=
  let parts := get_code_parts fs fname lineno vars max_lines
  (String.join parts.1, parts.2)

/-- `get_category_suggestion` (bestfix.py lines 120-136). -/
def get_category_suggestion (category variable_detected : String) : String :=
  if category = "Remote Code Execution" then
    "Use an allowlist for approved commands and compare `" ++ variable_detected ++
      "` and the arguments against this list."
  else if category = "SQL Injection" then
    "Use any alternative SQL method with builtin parameterization capability."
  else if category = "NoSQL Injection" then
    "Use any alternative SDK method with builtin parameterization capability."
  else if category = "Directory Traversal" then
    "Use an allowlist of safe file locations and compare `" ++ variable_detected ++
      "` against this list."
  else if category = "Deserialization" then
    "Follow security best practices to configure and use the deserialization library in a safe manner."
  else if category = "SSRF" then
    "Use an allowlist of approved URL domains or service IP addresses and compare `" ++
      variable_detected ++ "` against this list."
  else if category = "XML External Entities" then
    "Follow security best practices to configure and use the XML library in a safe manner."
  else ""

/-- The location block of bestfix.py lines 318-329: the `Before or at` sink
anchor always, plus the `After line` source anchor exactly when the two file
names differ or the signed difference `sink line - source line` exceeds 3. -/
def locationSuggestion (last_location_fname : String) (last_location_lineno : Int)
    (first_location_fname : String) (first_location_lineno : Int) : String :=
  let location_suggestion :=
    "- Before or at line " ++ toString last_location_lineno ++ " in " ++ last_location_fname
  if first_location_fname ≠ last_location_fname ∨
      last_location_lineno - first_location_lineno > 3 then
    location_suggestion ++ "\n- After line " ++ toString first_location_lineno ++
      " in " ++ first_location_fname
  else location_suggestion

/-- The best-practice/false-positive text of bestfix.py lines 331-340. -/
def bestPracticeFPText (location_suggestion sink_method : String) : String :=
  "This is likely a best practice finding or a false positive.\n\n**Fix locations:**\n\n" ++
    location_suggestion ++
    "\n\n**Remediation suggestions:**\n\nSpecify the sink method in your remediation config to suppress this finding.\n\n- " ++
    sink_method ++ "\n\n"

/-- The taint text of bestfix.py lines 345-351 and 364-370; branch 2 uses the
words `Parameter`/`parameter`, branch 3 uses `Parameter_str` in both places. -/
def taintText (taintWord validateWord variable_detected methodName category_suggestion
    sink_method location_suggestion : String) : String :=
  "**Taint:** " ++ taintWord ++ " `" ++ variable_detected ++ "` in the method `" ++
    methodName ++ "`\n\n" ++ category_suggestion ++
    "\nValidate or Sanitize the " ++ validateWord ++ " `" ++ variable_detected ++
    "` before invoking the sink `" ++ sink_method ++
    "`\n\n**Fix locations:**\n\n" ++ location_suggestion ++ "\n"

/-- The check-methods remediation suggestion of bestfix.py lines 371-379. -/
def checkMethodsText (check_methods : List String) : String :=
  "\n**Remediation suggestions:**\n\nInclude these detected CHECK methods in your remediation config to suppress this finding.\n\n- " ++
    joinSep "- " check_methods ++ "\n"

/-- The generic fallback text of bestfix.py lines 381-388. -/
def fallbackText (sink_method : String) : String :=
  "This is likely a best practice finding.\n\n**Remediation suggestions:**\n\nSpecify the sink method in your remediation config to suppress this finding.\n\n- " ++
    sink_method ++ "\n\n"

/-- The first-match rule cascade of bestfix.py lines 330-370: same
source/sink method, else snippet-detected variable, else non-empty taint
trail (with the more-than-4 summarization), else no text yet.  Branches 2 and
3 read `methods_list[-1]`, an `IndexError` when `methods_list` is empty. -/
def cascadeStep1 (category source_method sink_method variable_detected : String)
    (tracked_list methods_list : List String) (location_suggestion : String) :
    Except String (String × String) :=
  if source_method = sink_method then
    .ok (bestPracticeFPText location_suggestion sink_method, variable_detected)
  else if variable_detected ≠ "" then
    match methods_list.getLast? with
    | none => .error "IndexError"
    | some m =>
      .ok (taintText "Parameter" "parameter" variable_detected m
            (get_category_suggestion category variable_detected) sink_method
            location_suggestion,
          variable_detected)
  else if tracked_list ≠ [] then
    let vd0 := tracked_list.getLastD ""
    let pair :=
      if tracked_list.length > 4 then
        (tracked_list.headD "" ++ ", " ++ tracked_list.getD (tracked_list.length - 2) "" ++
           " and " ++ tracked_list.getLastD "", "Variables")
      else (vd0, "Parameter")
    match methods_list.getLast? with
    | none => .error "IndexError"
    | some m =>
      .ok (taintText pair.2 pair.2 pair.1 m
            (get_category_suggestion category pair.1) sink_method location_suggestion,
          pair.1)
  else .ok ("", variable_detected)

/-- Lines 371-388 of bestfix.py: append the check-methods suggestion when any
check methods were detected, then replace a still-empty `best_fix` by the
generic fallback. -/
def applyCheckAndFallback (check_methods : List String) (sink_method : String) :
    Except String (String × String) → Except String (String × String)
  | .error e => .error e
  | .ok (best_fix, variable_detected) =>
    let bf1 := if check_methods ≠ [] then best_fix ++ checkMethodsText check_methods
               else best_fix
    let bf2 := if bf1 = "" then fallbackText sink_method else bf1
    .ok (bf2, variable_detected)

/-- The whole best-fix decision engine for one finding (bestfix.py lines
316-388), producing `(best_fix, variable_detected)`. -/
def decideBestFix (category source_method sink_method variable_detected : String)
    (tracked_list methods_list check_methods : List String)
    (last_location_fname : String) (last_location_lineno : Int)
    (first_location_fname : String) (first_location_lineno : Int) :
    Except String (String × String) :=
  applyCheckAndFallback check_methods sink_method
    (cascadeStep1 category source_method sink_method variable_detected
      tracked_list methods_list
      (locationSuggestion last_location_fname last_location_lineno
        first_location_fname first_location_lineno))

/-- The output record assembled per qualifying finding (bestfix.py lines
406-424). -/
structure AnnotatedFinding where
  id : String
  category : String
  title : String
  version_first_seen : String
  scan_first_seen : String
  internal_id : String
  cvss_31_severity_rating : String
  cvss_score : String
  reachability : String
  source_method : String
  sink_method : String
  last_location : String
  variable_detected : String
  tracked_list : String
  check_methods : String
  code_snippet : String
  best_fix : String
deriving DecidableEq

/-- The three cohort maps (bestfix.py lines 175-177), each modeled as an
insertion-ordered association list from `(category, key)` to finding ids. -/
structure Cohorts where
  source_cohorts : List ((String × String) × List String)
  sink_cohorts : List ((String × String) × List String)
  source_sink_cohorts : List ((String × String) × List String)
deriving DecidableEq

/-- Appending a finding id under a cohort key, creating the entry on first
use (bestfix.py lines 293-306). -/
def addCohort : List ((String × String) × List String) → String × String → String →
    List ((String × String) × List String)
  | [], k, v => [(k, [v])]
  | (k2, vs) :: rest, k, v =>
    if k2 = k then (k2, vs ++ [v]) :: rest else (k2, vs) :: addCohort rest k v

/-- The tag scan of bestfix.py lines 196-203, extracting the CVSS rating,
CVSS score and reachability values. -/
def tagValues (tags : List Tag) : String × String × String :=
  tags.foldl
    (fun acc tag =>
      if tag.key = "cvss_31_severity_rating" then (tag.value, acc.2.1, acc.2.2)
      else if tag.key = "cvss_score" then (acc.1, tag.value, acc.2.2)
      else if tag.key = "reachability" then (acc.1, acc.2.1, tag.value)
      else acc)
    ("", "", "")

/-- Processing of one finding (bestfix.py lines 178-425).  Findings whose
category contains `Sensitive` or `Log` are skipped.  The dataflow normalizer
always runs; the best-fix block runs for findings whose `type` passes the
source's `afinding.get("type") in ("vuln")` test — a substring test against
the string `"vuln"`, since `("vuln")` is not a tuple.  `files_loc_list[-1]`
on an empty list is an `IndexError`; `int(...)` failure is a `ValueError`. -/
def processFinding (fs : SrcTree) (f : Finding) (cz : Cohorts) :
    Except String (Option AnnotatedFinding × Cohorts) :=
  let category := f.category
  if pyIn "Sensitive" category = true ∨ pyIn "Log" category = true then .ok (none, cz)
  else
    let ratings := tagValues f.tags
    match processDataflows f.details.source_method f.details.sink_method
        (f.details.dataflow.getD []) with
    | .error e => .error e
    | .ok norm =>
      if pyIn f.ftype "vuln" = true then
        match norm.files_loc_list with
        | [] => .error "IndexError"
        | x :: xs =>
          let files_loc_list := x :: xs
          let lastLoc0 := files_loc_list.getLastD ""
          let last_location :=
            if pyIn "html" lastLoc0 = true ∧ files_loc_list.length > 2 then
              files_loc_list.getD (files_loc_list.length - 2) ""
            else lastLoc0
          let first_location := x
          let cz2 : Cohorts :=
            { source_cohorts := addCohort cz.source_cohorts (category, first_location) f.id,
              sink_cohorts := addCohort cz.sink_cohorts (category, last_location) f.id,
              source_sink_cohorts :=
                addCohort cz.source_sink_cohorts
                  (category, first_location ++ "|" ++ last_location) f.id }
          let tmpA := pySplit last_location ":"
          let tmpB := pySplit first_location ":"
          let last_location_fname := tmpA.headD ""
          let first_location_fname := tmpB.headD ""
          match pyInt (tmpA.getLastD ""), pyInt (tmpB.getLastD "") with
          | some last_location_lineno, some first_location_lineno =>
            let snip := get_code fs last_location_fname last_location_lineno
              norm.tracked_list 3
            match decideBestFix category norm.source_method norm.sink_method snip.2
                norm.tracked_list norm.methods_list norm.check_methods
                last_location_fname (last_location_lineno : Int)
                first_location_fname (first_location_lineno : Int) with
            | .error e => .error e
            | .ok bfvd =>
              .ok (some
                { id := f.id, category := category, title := f.title,
                  version_first_seen := f.version_first_seen,
                  scan_first_seen := f.scan_first_seen,
                  internal_id := f.internal_id,
                  cvss_31_severity_rating := ratings.1,
                  cvss_score := ratings.2.1,
                  reachability := ratings.2.2,
                  source_method := norm.source_method,
                  sink_method := norm.sink_method,
                  last_location := last_location,
                  variable_detected := bfvd.2,
                  tracked_list := joinSep "\n" norm.tracked_list,
                  check_methods := joinSep "\n" norm.check_methods,
                  code_snippet := pyReplace snip.1 "\n" "\\n",
                  best_fix := pyReplace bfvd.1 "\n" "\\n" }, cz2)
          | _, _ => .error "ValueError"
      else .ok (none, cz)

/-- Sequential processing of a finding batch; a raised exception aborts the
remaining findings, as an uncaught Python exception would. -/
def processFindings (fs : SrcTree) :
    List Finding → Cohorts → List AnnotatedFinding →
    Except String (List AnnotatedFinding × Cohorts)
  | [], cz, acc => .ok (acc, cz)
  | f :: rest, cz, acc =>
    match processFinding fs f cz with
    | .error e => .error e
    | .ok (some af, cz2) => processFindings fs rest cz2 (acc ++ [af])
    | .ok (none, cz2) => processFindings fs rest cz2 acc

/-- `find_best_fix` (bestfix.py lines 164-430) restricted to its reasoning
core: the annotated findings plus the three cohort maps produced from a
finding batch. -/
def find_best_fix (fs : SrcTree) (findings : List Finding) :
    Except String (List AnnotatedFinding × Cohorts) :=
  processFindings fs findings { source_cohorts := [], sink_cohorts := [],
                                source_sink_cohorts := [] } []

/-- A source tree with no readable files: every lookup yields `""`. -/
def fs0 : SrcTree := fun _ _ => ""

/-- A `vuln` finding with an absent (hence empty) dataflow list. -/
def c1finding : Finding :=
  ⟨"F1", "vuln", "SQL Injection", "t", "", "", "", ⟨"", "", none⟩, []⟩

/-- A well-formed `vuln` finding with one valid dataflow step. -/
def c1good : Finding :=
  ⟨"F2", "vuln", "SQL Injection", "t", "", "", "",
   ⟨"", "", some [⟨⟨some "a.py", some 1, some "com.A.run", some "run"⟩, none⟩]⟩, []⟩

/-- Number of annotated findings produced by a run of the engine. -/
def afsCount (r : Except String (List AnnotatedFinding × Cohorts)) : Nat :=
  match r with
  | .ok p => p.1.length
  | .error _ => 0

/-- A `variable_info` record carrying both a `Parameter` symbol `p` and a
`Member` symbol `a.b`, and no `Local`. -/
def viBoth : VarInfoNode :=
  .mk none none (some ⟨some "p"⟩) none none none (some ⟨some "a.b"⟩) none

/-- A location used by several concrete traces. -/
def locA : Location := ⟨some "a.py", some 2, some "com.Foo.bar:void", some "bar"⟩

/-- A step whose `variable_info` carries a Local symbol `self`. -/
def stepSelf : DataflowStep :=
  ⟨locA, some (.mk none none none none none (some ⟨some "self"⟩) none none)⟩

/-- The taint trail of a normalizer run, `[]` on error. -/
def trackedOf (r : Except String NormResult) : List String :=
  match r with
  | .ok n => n.tracked_list
  | .error _ => []

/-- A step at the percent-encoded location `a%20b:1`. -/
def stepPct : DataflowStep := ⟨⟨some "a%20b", some 1, some "m", some "m"⟩, none⟩

/-- The visited-locations list of a normalizer run, `[]` on error. -/
def filesOf (r : Except String NormResult) : List String :=
  match r with
  | .ok n => n.files_loc_list
  | .error _ => []

/-- A source tree in which every line of every file reads `"x\n"`. -/
def fsX : SrcTree := fun _ _ => "x\n"

/-- The empty normalizer state. -/
def nm0 : NormState := ⟨[], [], [], [], ""⟩

/-- The stoplist property asserted of every trail symbol by the amended C3:
not `this`, `req`, `res` or `p1`, and not containing `____obj`. -/
def cleanSym (s : String) : Prop :=
  s ≠ "this" ∧ s ≠ "req" ∧ s ≠ "res" ∧ s ≠ "p1" ∧ pyIn "____obj" s = false

/-- A source tree in which every line of `a.py` reads `query(uname)`. -/
def fsC4 : SrcTree := fun f _ => if f = "a.py" then "query(uname)\n" else ""

/-- A `vuln` finding with equal `source_method` and `sink_method` whose trace
tracks the symbol `uname`, which also occurs in the sink snippet. -/
def c4finding : Finding :=
  ⟨"F4", "vuln", "SQL Injection", "t", "", "", "",
   ⟨"com.Foo.bar", "com.Foo.bar",
    some [⟨locA, some (.mk none none none none none (some ⟨some "uname"⟩) none none)⟩]⟩, []⟩

/-- The `variable_detected` output field of a processed finding. -/
def vdOf (r : Except String (Option AnnotatedFinding × Cohorts)) : Option String :=
  match r with
  | .ok (some af, _) => some af.variable_detected
  | .ok (none, _) => none
  | .error _ => none

/-- The `best_fix` output field of a processed finding. -/
def bfTextOf (r : Except String (Option AnnotatedFinding × Cohorts)) : String :=
  match r with
  | .ok (some af, _) => af.best_fix
  | .ok (none, _) => ""
  | .error _ => ""

/-- The engine run behind the C6 counterexample: distinct source and sink
methods, no snippet variable, an empty trail, and one detected check method. -/
def c6run : Except String (String × String) :=
  decideBestFix "SQL Injection" "src.m" "sink.m" "" [] [] ["com.X.checkIt"]
    "a.py" 5 "b.py" 1

/-- The best-fix text of a cascade run, `""` on error. -/
def bfOf (r : Except String (String × String)) : String :=
  match r with
  | .ok p => p.1
  | .error _ => ""

/-- Appending preserves the character-list view. -/
theorem str_data_append (a b : String) : (a ++ b).data = a.data ++ b.data := by
  cases a
  cases b
  rfl

/-- `pyIn` unfolded to list infixity. -/
theorem pyIn_iff (sub s : String) : pyIn sub s = true ↔ sub.data <:+: s.data := by
  simp [pyIn]

/-- A string occurs in itself. -/
theorem pyIn_refl (s : String) : pyIn s s = true := by
  simp [pyIn]

/-- Occurrence is stable under appending on the right. -/
theorem pyIn_append_left (sub a b : String) (h : pyIn sub a = true) :
    pyIn sub (a ++ b) = true := by
  rw [pyIn_iff] at h ⊢
  rw [str_data_append]
  obtain ⟨s, t, hst⟩ := h
  exact ⟨s, t ++ b.data, by rw [← hst]; simp⟩

/-- Occurrence is stable under appending on the left. -/
theorem pyIn_append_right (sub a b : String) (h : pyIn sub b = true) :
    pyIn sub (a ++ b) = true := by
  rw [pyIn_iff] at h ⊢
  rw [str_data_append]
  obtain ⟨s, t, hst⟩ := h
  exact ⟨a.data ++ s, t, by rw [← hst]; simp⟩

/-- A string containing a non-empty substring is itself non-empty. -/
theorem ne_empty_of_pyIn (sub s : String) (h : pyIn sub s = true) (hs : sub ≠ "") :
    s ≠ "" := by
  intro he
  rw [pyIn_iff] at h
  obtain ⟨a, b, hab⟩ := h
  rw [he] at hab
  have hnil : a ++ sub.data ++ b = ([] : List Char) := hab
  have h1 := List.append_eq_nil.mp hnil
  have h2 := List.append_eq_nil.mp h1.1
  apply hs
  cases sub with
  | mk d =>
    simp only [] at h2
    rw [h2.2]

/-- Every member of a list occurs in its `joinSep`. -/
theorem pyIn_joinSep (sep : String) (l : List String) (m : String) (hm : m ∈ l) :
    pyIn m (joinSep sep l) = true := by
  induction l with
  | nil => cases hm
  | cons a t ih =>
    cases t with
    | nil =>
      rcases List.mem_singleton.mp hm with rfl
      exact pyIn_refl m
    | cons b r =>
      rcases List.mem_cons.mp hm with rfl | hm2
      · exact pyIn_append_left _ _ _ (pyIn_append_left _ _ _ (pyIn_refl m))
      · exact pyIn_append_right _ _ _ (ih hm2)

/-- Claim C1: a `vuln` finding whose dataflow list is empty is claimed to
fall through to the generic fallback without aborting the batch.  In the
code, `files_loc_list[-1]` (bestfix.py line 288) raises `IndexError` on the
empty list, aborting the whole batch: the two-finding batch below errors and
yields no annotated findings at all, although the second finding alone is
processed fine. -/
theorem claim_C1 :
    find_best_fix fs0 [c1finding, c1good] =
      (Except.error "IndexError" : Except String (List AnnotatedFinding × Cohorts)) ∧
    afsCount (find_best_fix fs0 [c1good]) = 1 := by
  exact ⟨rfl, rfl⟩

/-- Claim C2 counterexample: for a step with both a Parameter and a Member
symbol, the claim says the resolved symbol equals the Parameter's symbol and
never the Member's; the code resolves the Member's last dotted segment `b`,
not `p`, because the three `if`s of bestfix.py lines 237-242 are sequential
and the Member assignment overwrites the Parameter one. -/
theorem claim_C2_counterexample :
    resolveSymbol viBoth = "b" ∧ resolveSymbol viBoth ≠ "p" := by
  exact ⟨rfl, by decide⟩

/-- Claim C2 as amended: when a step carries both a truthy Parameter symbol
and a truthy Member symbol and no truthy Local symbol, the resolved symbol is
the Member's last dotted segment (the Parameter's symbol is used only when
neither Member nor Local supplies one). -/
theorem claim_C2_amended (v : VarInfoNode) (p m : String)
    (hp : symTruthy (firstSome (unwrapVarInfo v).paramUC (unwrapVarInfo v).paramLC) = some p)
    (hm : symTruthy (firstSome (unwrapVarInfo v).memUC (unwrapVarInfo v).memLC) = some m)
    (hl : symTruthy (firstSome (unwrapVarInfo v).locUC (unwrapVarInfo v).locLC) = none) :
    resolveSymbol v = lastSeg m := by
  simp only [resolveSymbol, resolveFields, hp, hm, hl]

/-- Witness for C2: the amended precedence evaluated on `viBoth`. -/
theorem claim_C2_witness : resolveSymbol viBoth = lastSeg "a.b" :=
  claim_C2_amended viBoth "p" "a.b" rfl rfl rfl

/-- Claim C3 counterexample: the claim says the trail never contains `self`;
the stoplist tuple of bestfix.py lines 248-253 is `("this", "req", "res",
"p1")` — it does not include `self` — so a step with Local symbol `self`
puts `self` into the trail. -/
theorem claim_C3_counterexample :
    trackedOf (processDataflows "" "" [stepSelf]) = ["self"] := by
  exact rfl

/-- Claim C8: the location trail is claimed de-duplicated on the decoded
string.  The code (bestfix.py lines 276-278) tests membership of the *raw*
`file:line` but appends its *decoded* form, so the same percent-encoded
location visited twice is appended twice: the decoded duplicate below. -/
theorem claim_C8 :
    filesOf (processDataflows "" "" [stepPct, stepPct]) = ["a b:1", "a b:1"] := by
  exact rfl

/-- Claim C5: with `max_lines = 3` and target line 10 the claim (and the
spec) expect the three lines 9, 10 and 11 starting at
`lmin = max(1, 10 - 3/2) = 9`.  The loop `for line in xrange(lmin, lmax)`
with `lmax = lmin + max_lines - 1` (bestfix.py lines 99-102) iterates only
`max_lines - 1` times, so the code returns exactly the two lines 9 and 10,
never reading line 11. -/
theorem claim_C5 :
    get_code_parts fsX "a.py" 10 [] 3 = (["9 x\n", "10 x\n"], "") := by
  exact rfl

/-- Claim C7 counterexample: same file, source at line 10 and sink at line 1
are 9 > 3 lines apart, yet no `After line` anchor is emitted, because the
code compares the signed difference `sink line - source line` (bestfix.py
line 324), here `1 - 10 = -9`, not the distance. -/
theorem claim_C7_counterexample :
    locationSuggestion "a.py" 1 "a.py" 10 = "- Before or at line 1 in a.py" ∧
    pyIn "After line" (locationSuggestion "a.py" 1 "a.py" 10) = false := by
  exact ⟨rfl, by decide⟩

/-- Claim C7 as amended: the `Before or at` sink anchor is always present,
and the `After line` source anchor is appended exactly when the files differ
or the *signed* difference sink line minus source line exceeds 3 (a sink more
than 3 lines above the source in the same file gets no anchor). -/
theorem claim_C7_amended (lf ff : String) (ll fl : Int) :
    pyIn "- Before or at line " (locationSuggestion lf ll ff fl) = true ∧
    ((ff ≠ lf ∨ ll - fl > 3) →
      pyIn "\n- After line " (locationSuggestion lf ll ff fl) = true) ∧
    (¬(ff ≠ lf ∨ ll - fl > 3) →
      locationSuggestion lf ll ff fl =
        "- Before or at line " ++ toString ll ++ " in " ++ lf) := by
  unfold locationSuggestion
  by_cases h : (ff ≠ lf ∨ ll - fl > 3)
  · rw [if_pos h]
    refine ⟨?_, fun _ => ?_, fun hn => absurd h hn⟩
    · apply pyIn_append_left
      apply pyIn_append_left
      apply pyIn_append_left
      apply pyIn_append_left
      apply pyIn_append_left
      apply pyIn_append_left
      apply pyIn_append_left
      exact pyIn_refl _
    · apply pyIn_append_left
      apply pyIn_append_left
      apply pyIn_append_left
      apply pyIn_append_right
      exact pyIn_refl _
  · rw [if_neg h]
    refine ⟨?_, fun hp => absurd hp h, fun _ => rfl⟩
    apply pyIn_append_left
    apply pyIn_append_left
    apply pyIn_append_left
    exact pyIn_refl _

/-- Witness for C7: same file, sink 10 lines below the source, anchor
emitted. -/
theorem claim_C7_witness :
    pyIn "\n- After line " (locationSuggestion "s.py" 20 "s.py" 10) = true :=
  (claim_C7_amended "s.py" "s.py" 20 10).2.1 (Or.inr (by decide))

/-- Claim C9: the engine is a deterministic function of the finding batch
and the source tree — two runs on identical input produce the same annotated
findings and the same cohort maps. -/
theorem claim_C9 (fs : SrcTree) (findings : List Finding)
    (r1 r2 : Except String (List AnnotatedFinding × Cohorts))
    (h1 : find_best_fix fs findings = r1) (h2 : find_best_fix fs findings = r2) :
    r1 = r2 := by
  rw [← h1, ← h2]

/-- Witness for C9: two runs on the empty batch agree. -/
theorem claim_C9_witness :
    (Except.ok ([], (⟨[], [], []⟩ : Cohorts)) :
      Except String (List AnnotatedFinding × Cohorts)) =
    Except.ok ([], (⟨[], [], []⟩ : Cohorts)) :=
  claim_C9 fs0 [] _ _ rfl rfl

/-- Claim C10: a step with a valid location in a `.cs` file and no
`short_method_name` makes the step processor raise (`"get_" in None` is a
`TypeError`) rather than being skipped, so the normalizer is total on `.cs`
steps only when `short_method_name` is present. -/
theorem claim_C10 (st : NormState) (df : DataflowStep) (f : String) (n : Nat)
    (hf : df.location.file_name = some f) (hcs : pyIn ".cs" f = true)
    (hl : df.location.line_number = some n) (hn : n ≠ 0)
    (hs : df.location.short_method_name = none) :
    processStep st df = .error "TypeError" := by
  have hfna : f ≠ "N/A" := by
    intro he
    rw [he] at hcs
    exact absurd hcs (by decide)
  simp only [processStep]
  rw [hf, hl, hs]
  simp [hcs, hn, hfna]

/-- Witness for C10: a concrete `.cs` step with a missing
`short_method_name` raises. -/
theorem claim_C10_witness :
    processStep nm0 ⟨⟨some "x.cs", some 5, some "m", none⟩, none⟩ =
      .error "TypeError" :=
  claim_C10 nm0 ⟨⟨some "x.cs", some 5, some "m", none⟩, none⟩ "x.cs" 5
    rfl (by decide) rfl (by decide) rfl

/-- `updateTracked` only ever appends symbols passing the stoplist filter. -/
theorem updateTracked_clean (fn sym : String) (tr : List String)
    (h : ∀ s ∈ tr, cleanSym s) : ∀ s ∈ updateTracked fn sym tr, cleanSym s := by
  intro s hs
  unfold updateTracked at hs
  by_cases hg : (sym ≠ "" ∧ sym ∉ tr ∧ pyIn "____obj" sym = false ∧
      sym ∉ (["this", "req", "res", "p1"] : List String))
  · rw [if_pos hg] at hs
    have hsym : cleanSym sym := by
      obtain ⟨h1, h2, h3, h4⟩ := hg
      refine ⟨?_, ?_, ?_, ?_, h3⟩ <;>
        · intro he
          rw [he] at h4
          exact h4 (by decide)
    by_cases hcs : pyIn ".cs" fn = true
    · rw [if_pos hcs] at hs
      by_cases hdto : pyIn "Dto" sym = false
      · rw [if_pos hdto] at hs
        rcases List.mem_append.mp hs with h5 | h6
        · exact h s h5
        · rcases List.mem_singleton.mp h6 with rfl
          exact hsym
      · rw [if_neg hdto] at hs
        exact h s hs
    · rw [if_neg hcs] at hs
      rcases List.mem_append.mp hs with h5 | h6
      · exact h s h5
      · rcases List.mem_singleton.mp h6 with rfl
        exact hsym
  · rw [if_neg hg] at hs
    exact h s hs

/-- The step body preserves the stoplist invariant of the trail. -/
theorem processStepBody_clean (st st' : NormState) (loc : Location) (fn : String)
    (vi : Option VarInfoNode) (h : processStepBody st loc fn vi = .ok st')
    (hc : ∀ s ∈ st.tracked_list, cleanSym s) : ∀ s ∈ st'.tracked_list, cleanSym s := by
  simp only [processStepBody] at h
  split at h
  · cases h
  · injection h with h2
    subst h2
    intro s hs
    cases vi with
    | none => exact hc s hs
    | some v => exact updateTracked_clean fn (resolveSymbol v) st.tracked_list hc s hs

/-- One normalizer step preserves the stoplist invariant of the trail. -/
theorem processStep_clean (st st' : NormState) (df : DataflowStep)
    (h : processStep st df = .ok st') (hc : ∀ s ∈ st.tracked_list, cleanSym s) :
    ∀ s ∈ st'.tracked_list, cleanSym s := by
  simp only [processStep] at h
  split at h
  · injection h with h2
    subst h2
    exact hc
  · split at h
    · cases h
    · split at h
      · split at h
        · cases h
        · split at h
          · injection h with h2
            subst h2
            exact hc
          · exact processStepBody_clean _ _ _ _ _ h hc
      · exact processStepBody_clean _ _ _ _ _ h hc

/-- The whole normalizer loop preserves the stoplist invariant. -/
theorem foldSteps_clean (dfs : List DataflowStep) (st st' : NormState)
    (h : foldSteps st dfs = .ok st') (hc : ∀ s ∈ st.tracked_list, cleanSym s) :
    ∀ s ∈ st'.tracked_list, cleanSym s := by
  induction dfs generalizing st with
  | nil =>
    simp only [foldSteps] at h
    injection h with h2
    subst h2
    exact hc
  | cons d rest ih =>
    simp only [foldSteps] at h
    cases hp : processStep st d with
    | error e =>
      rw [hp] at h
      simp at h
    | ok st2 =>
      rw [hp] at h
      exact ih st2 h (processStep_clean st st2 d hp hc)

/-- Claim C3 as amended: the trail never contains `this`, `req`, `res` or
`p1`, nor any symbol containing `____obj` — but `self` is not filtered from
the trail (it is only filtered by the snippet highlighter). -/
theorem claim_C3_amended (src snk : String) (dfs : List DataflowStep) (norm : NormResult)
    (h : processDataflows src snk dfs = .ok norm) :
    ∀ s ∈ norm.tracked_list,
      s ≠ "this" ∧ s ≠ "req" ∧ s ≠ "res" ∧ s ≠ "p1" ∧ pyIn "____obj" s = false := by
  simp only [processDataflows] at h
  cases hf : foldSteps ⟨[], [], [], [], src⟩ dfs with
  | error e =>
    rw [hf] at h
    simp at h
  | ok st =>
    rw [hf] at h
    injection h with h2
    intro s hs
    rw [← h2] at hs
    exact foldSteps_clean dfs _ st hf (fun s2 hs2 => absurd hs2 (List.not_mem_nil s2)) s hs

/-- Witness for C3: the amended stoplist property applied to the symbol
`self` that the counterexample trace puts into the trail. -/
theorem claim_C3_witness :
    ("self" : String) ≠ "this" ∧ ("self" : String) ≠ "req" ∧
      ("self" : String) ≠ "res" ∧ ("self" : String) ≠ "p1" ∧
      pyIn "____obj" "self" = false :=
  claim_C3_amended "" "" [stepSelf]
    ⟨["self"], ["a.py:2"], ["bar"], [], "a.py:2", "a.py:2"⟩ rfl "self" (by decide)

/-- When source and sink method coincide, the cascade takes its first branch. -/
theorem cascadeStep1_same (category source_method sink_method variable_detected : String)
    (tracked methods : List String) (loc : String) (h : source_method = sink_method) :
    cascadeStep1 category source_method sink_method variable_detected tracked methods loc =
      .ok (bestPracticeFPText loc sink_method, variable_detected) := by
  simp only [cascadeStep1, if_pos h]

/-- The phrase of the first cascade branch occurs in its text. -/
theorem bestPracticeFPText_phrase (loc sink_method : String) :
    pyIn "best practice finding or a false positive"
      (bestPracticeFPText loc sink_method) = true := by
  unfold bestPracticeFPText
  apply pyIn_append_left
  apply pyIn_append_left
  apply pyIn_append_left
  apply pyIn_append_left
  decide

/-- Claim C4 as amended: for a finding taking the same-source-and-sink branch
the best fix always contains the phrase `best practice finding or a false
positive`, but the snippet-level variable analysis has already run and its
result is carried into `variable_detected` unchanged — the output field is
empty only when the snippet detector found nothing. -/
theorem claim_C4_amended (category source_method sink_method variable_detected : String)
    (tracked methods checks : List String) (lf ff : String) (ll fl : Int)
    (bf vd : String) (hss : source_method = sink_method)
    (h : decideBestFix category source_method sink_method variable_detected tracked
        methods checks lf ll ff fl = .ok (bf, vd)) :
    pyIn "best practice finding or a false positive" bf = true ∧
      vd = variable_detected := by
  unfold decideBestFix at h
  rw [cascadeStep1_same category source_method sink_method variable_detected tracked
      methods (locationSuggestion lf ll ff fl) hss] at h
  simp only [applyCheckAndFallback] at h
  by_cases hck : checks ≠ []
  · rw [if_pos hck] at h
    have hph : pyIn "best practice finding or a false positive"
        (bestPracticeFPText (locationSuggestion lf ll ff fl) sink_method ++
          checkMethodsText checks) = true :=
      pyIn_append_left _ _ _ (bestPracticeFPText_phrase _ _)
    rw [if_neg (ne_empty_of_pyIn _ _ hph (by decide))] at h
    injection h with h2
    rw [Prod.mk.injEq] at h2
    obtain ⟨h3, h4⟩ := h2
    subst h3
    subst h4
    exact ⟨hph, rfl⟩
  · rw [if_neg hck] at h
    have hph : pyIn "best practice finding or a false positive"
        (bestPracticeFPText (locationSuggestion lf ll ff fl) sink_method) = true :=
      bestPracticeFPText_phrase _ _
    rw [if_neg (ne_empty_of_pyIn _ _ hph (by decide))] at h
    injection h with h2
    rw [Prod.mk.injEq] at h2
    obtain ⟨h3, h4⟩ := h2
    subst h3
    subst h4
    exact ⟨hph, rfl⟩

/-- Witness for C4: the amended statement evaluated on a concrete
same-source-and-sink input with a detected snippet variable `v`. -/
theorem claim_C4_witness :
    pyIn "best practice finding or a false positive"
      (bestPracticeFPText (locationSuggestion "a" 1 "a" 1) "s") = true ∧
    ("v" : String) = "v" :=
  claim_C4_amended "X" "s" "s" "v" [] [] [] "a" "a" 1 1
    (bestPracticeFPText (locationSuggestion "a" 1 "a" 1) "s") "v" rfl rfl

/-- The check-methods suggestion header occurs in its text. -/
theorem checkMethodsText_header (checks : List String) :
    pyIn "Include these detected CHECK methods in your remediation config to suppress this finding."
      (checkMethodsText checks) = true := by
  unfold checkMethodsText
  apply pyIn_append_left
  apply pyIn_append_left
  decide

/-- Claim C6 as amended: whenever check/validation methods were detected the
final best fix names every one of them in the appended remediation-config
suggestion, in every cascade branch — but when the cascade itself produced no
text the best fix consists of that suggestion alone, and the generic
`likely best practice finding` fallback is suppressed. -/
theorem claim_C6_amended (category source_method sink_method variable_detected : String)
    (tracked methods checks : List String) (lf ff : String) (ll fl : Int)
    (bf vd2 : String) (hc : checks ≠ [])
    (h : decideBestFix category source_method sink_method variable_detected tracked
        methods checks lf ll ff fl = .ok (bf, vd2)) :
    pyIn "Include these detected CHECK methods in your remediation config to suppress this finding."
      bf = true ∧
    ∀ m ∈ checks, pyIn m bf = true := by
  unfold decideBestFix at h
  cases hcas : cascadeStep1 category source_method sink_method variable_detected tracked
      methods (locationSuggestion lf ll ff fl) with
  | error e =>
    rw [hcas] at h
    simp [applyCheckAndFallback] at h
  | ok pr =>
    obtain ⟨b0, v0⟩ := pr
    rw [hcas] at h
    simp only [applyCheckAndFallback] at h
    rw [if_pos hc] at h
    have hhdr := checkMethodsText_header checks
    have hne : b0 ++ checkMethodsText checks ≠ "" :=
      ne_empty_of_pyIn _ _ (pyIn_append_right _ _ _ hhdr) (by decide)
    rw [if_neg hne] at h
    injection h with h2
    rw [Prod.mk.injEq] at h2
    obtain ⟨h3, h4⟩ := h2
    subst h3
    constructor
    · exact pyIn_append_right _ _ _ hhdr
    · intro m hm
      apply pyIn_append_right
      unfold checkMethodsText
      apply pyIn_append_left
      apply pyIn_append_right
      exact pyIn_joinSep _ _ _ hm

/-- Witness for C6: the amended statement evaluated on a concrete input with
one detected check method `ck`. -/
theorem claim_C6_witness :
    pyIn "Include these detected CHECK methods in your remediation config to suppress this finding."
      (bestPracticeFPText (locationSuggestion "a" 1 "a" 1) "s" ++ checkMethodsText ["ck"]) = true ∧
    ∀ m ∈ (["ck"] : List String),
      pyIn m (bestPracticeFPText (locationSuggestion "a" 1 "a" 1) "s" ++
        checkMethodsText ["ck"]) = true :=
  claim_C6_amended "c" "s" "s" "" [] [] ["ck"] "a" "a" 1 1
    (bestPracticeFPText (locationSuggestion "a" 1 "a" 1) "s" ++ checkMethodsText ["ck"])
    "" (by decide) rfl

/-- Claim C4 counterexample: the claim says that with equal source and sink
method no variable analysis is performed and `variable_detected` is empty.
The snippet scan of bestfix.py line 313 runs *before* the cascade, so a
tracked symbol found in the sink snippet ends up in `variable_detected`
(`"uname"` here, not `""`), while `best_fix` does carry the claimed phrase. -/
theorem claim_C4_counterexample :
    vdOf (processFinding fsC4 c4finding ⟨[], [], []⟩) = some "uname" ∧
    pyIn "best practice finding or a false positive"
      (bfTextOf (processFinding fsC4 c4finding ⟨[], [], []⟩)) = true := by
  exact ⟨rfl, by decide⟩

/-- Claim C6 counterexample: in the branch with neither snippet symbol nor
taint trail, the claim says the generic `likely best-practice finding` text
is still produced alongside the check-method suggestion.  In the code the
check-method append (bestfix.py line 371) makes `best_fix` non-empty, so the
fallback of line 381 never fires: the output names the check method but does
not contain the generic text. -/
theorem claim_C6_counterexample :
    pyIn "likely a best practice finding" (bfOf c6run) = false ∧
    pyIn "com.X.checkIt" (bfOf c6run) = true := by
  exact ⟨by decide, by decide⟩
